import Mathlib

/-!
Shallow embedding of the `presence` service (sources: `src/main.rs`,
`src/discord.rs`, `src/redis.rs`) together with proofs about the claims of
its specification.  Rust machine integers are modelled as `Nat`/`Int` with
explicit bounds where overflow matters; the concurrent maps (`DashMap`) are
modelled as total functions `String → Option _`; fallible external calls are
modelled as explicit result data passed to the embedded functions.
-/

namespace Presence

/-- Embeds `SpotifyActivity` from `src/main.rs` (lines 16-24).  Rust `i64`
timestamps are modelled as `Int`. -/
structure SpotifyActivity where
  track : Option String
  artist : Option String
  album : Option String
  album_art_url : Option String
  started_at_ms : Option Int
  ends_at_ms : Option Int
deriving DecidableEq, Repr

/-- Embeds `PresenceData` from `src/main.rs` (lines 26-31). -/
structure PresenceData where
  user_id : String
  spotify : Option SpotifyActivity
  timestamp_ms : Int
deriving DecidableEq, Repr

/-- Constant `PRESENCE_TTL_MS` from `src/main.rs` line 34: `5 * 60 * 1000`. -/
def PRESENCE_TTL_MS : Int := 5 * 60 * 1000

/-- Constant `MAX_CONNECTIONS_PER_IP` from `src/main.rs` line 35. -/
def MAX_CONNECTIONS_PER_IP : Nat := 10

/-- Embeds Rust `str::len` (a count of UTF-8 bytes, not characters), as used
by `validate_user_id` in `src/main.rs` line 57. -/
def rustStrLen (s : String) : Nat := (s.data.map Char.utf8Size).sum

/-- Embeds `validate_user_id` from `src/main.rs` lines 56-58:
`user_id.len() <= 20 && user_id.chars().all(|c| c.is_ascii_digit())`. -/
def validate_user_id (s : String) : Bool :=
  decide (rustStrLen s ≤ 20) && s.data.all (fun c => c.isDigit)

/-- Embeds `is_presence_stale` from `src/main.rs` lines 51-54; `now` is the
value of `chrono::Utc::now().timestamp_millis()`. -/
def is_presence_stale (now : Int) (presence : PresenceData) : Bool :=
  decide (now - presence.timestamp_ms > PRESENCE_TTL_MS)

/-- Pointwise update of a map modelled as a total function. -/
def upd {α : Type} (m : String → Option α) (k : String) (v : Option α) :
    String → Option α :=
  fun x => if x = k then v else m x

/-- The observable outcome of `get_presence_handler` (status code plus body
shape), `src/main.rs` lines 60-82. -/
inductive HttpResp where
  /-- Status 200 with the JSON-encoded presence record. -/
  | ok (d : PresenceData)
  /-- Status 404 with body `\x7b"error": "User not found"\x7d`. -/
  | notFound
  /-- Status 400 with body `\x7b"error": "invalid user id"\x7d`. -/
  | badRequest
deriving DecidableEq, Repr

/-- Embeds `get_presence_handler` from `src/main.rs` lines 60-82.  The
handler reads and possibly mutates the presence cache, so it is modelled as
a function from the cache (and the current clock value) to the response
together with the resulting cache. -/
def get_presence_handler (cache : String → Option PresenceData) (now : Int)
    (user_id : String) : HttpResp × (String → Option PresenceData) :=
  if validate_user_id user_id = false then (.badRequest, cache)
  else
    match cache user_id with
    | some presence =>
      if is_presence_stale now presence then
        (.notFound, upd cache user_id none)
      else
        (.ok presence, cache)
    | none => (.notFound, cache)

/-! Model of the JSON values exchanged with the remote cache tier
(`serde_json::to_string` / `serde_json::from_str` in `src/redis.rs`).  The
serialized string is represented by its JSON tree. -/

/-- JSON values, as far as the presence records need them. -/
inductive Json where
  | null
  | str (s : String)
  | num (n : Int)
  | obj (fields : List (String × Json))

/-- Serde encoding of an `Option<String>` field. -/
def encodeOptStr : Option String → Json
  | none => .null
  | some s => .str s

/-- Serde encoding of an `Option<i64>` field. -/
def encodeOptInt : Option Int → Json
  | none => .null
  | some n => .num n

/-- Serde encoding of `SpotifyActivity` (derive `Serialize` in
`src/main.rs` line 16). -/
def encodeSpotify (a : SpotifyActivity) : Json :=
  .obj [("track", encodeOptStr a.track),
        ("artist", encodeOptStr a.artist),
        ("album", encodeOptStr a.album),
        ("album_art_url", encodeOptStr a.album_art_url),
        ("started_at_ms", encodeOptInt a.started_at_ms),
        ("ends_at_ms", encodeOptInt a.ends_at_ms)]

/-- Serde encoding of `PresenceData` (derive `Serialize` in `src/main.rs`
line 26). -/
def encodePresence (d : PresenceData) : Json :=
  .obj [("user_id", .str d.user_id),
        ("spotify", match d.spotify with
                    | none => .null
                    | some a => encodeSpotify a),
        ("timestamp_ms", .num d.timestamp_ms)]

/-- Field lookup in a JSON object. -/
def jfield (fs : List (String × Json)) (k : String) : Option Json :=
  (fs.find? (fun p => p.1 = k)).map Prod.snd

/-- Serde decoding of an `Option<String>` field. -/
def decodeOptStr : Json → Option (Option String)
  | .null => some none
  | .str s => some (some s)
  | _ => none

/-- Serde decoding of an `Option<i64>` field. -/
def decodeOptInt : Json → Option (Option Int)
  | .null => some none
  | .num n => some (some n)
  | _ => none

/-- Serde decoding of `SpotifyActivity` (derive `Deserialize`). -/
def decodeSpotify : Json → Option SpotifyActivity
  | .obj fs =>
    match jfield fs "track", jfield fs "artist", jfield fs "album",
          jfield fs "album_art_url", jfield fs "started_at_ms",
          jfield fs "ends_at_ms" with
    | some jt, some jar, some jal, some ju, some js, some je =>
      match decodeOptStr jt, decodeOptStr jar, decodeOptStr jal,
            decodeOptStr ju, decodeOptInt js, decodeOptInt je with
      | some t, some ar, some al, some u, some st, some en =>
        some ⟨t, ar, al, u, st, en⟩
      | _, _, _, _, _, _ => none
    | _, _, _, _, _, _ => none
  | _ => none

/-- Serde decoding of `PresenceData` (derive `Deserialize`). -/
def decodePresence : Json → Option PresenceData
  | .obj fs =>
    match jfield fs "user_id", jfield fs "spotify", jfield fs "timestamp_ms" with
    | some (.str uid), some sj, some (.num ts) =>
      match sj with
      | .null => some ⟨uid, none, ts⟩
      | _ => (decodeSpotify sj).map (fun a => ⟨uid, some a, ts⟩)
    | _, _, _ => none
  | _ => none

/-! Model of the tiered cache in `src/redis.rs`.  Whether the remote tier
is configured is decided once at startup (`REDIS_URL` and the one-time
`init_redis`).  Each individual remote round trip can fail independently:
`Cache::set` ignores the result of `set_ex` (`let _: Result<(), _> = ...`),
and `Cache::get` absorbs a `GET` error by falling through to memory — so
every embedded operation takes its own per-call success flag.  A key
written by `set_ex` carries the 300-second expiry `CACHE_TTL_SECS`: the
remote store keeps each value with its absolute expiry deadline, and a
read at or past the deadline sees the key as absent. -/

/-- Constant `CACHE_TTL_SECS` from `src/redis.rs` line 12 (as `Int`
seconds, matching the clock of the remote tier). -/
def CACHE_TTL_SECS : Int := 300

/-- State of the optional remote tier: whether `REDIS_CLIENT` holds a
connection manager, and the remote key-value store itself, each key paired
with its absolute expiry deadline. -/
structure RemoteTier where
  configured : Bool
  store : String → Option (Json × Int)

/-- Combined state of `Cache` (`src/redis.rs` lines 57-59) and the remote
tier it talks to. -/
structure CacheState where
  remote : RemoteTier
  memory : String → Option PresenceData

/-- Outcome of `redis.get::<_, Option<String>>(&key)`. -/
inductive RResp where
  | found (j : Json)
  | missing
  | err

/-- Behaviour of one remote `GET` round trip at time `now`: when the call
succeeds (`rok`), the store answers — a key is visible strictly before its
expiry deadline and absent from then on; when the call fails, the caller
sees `Err`. -/
def remoteGet (r : RemoteTier) (key : String) (now : Int) (rok : Bool) :
    RResp :=
  if rok then
    match r.store key with
    | some (j, dl) => if now < dl then .found j else .missing
    | none => .missing
  else .err

/-- The remote key for a user id: `format!("presence:\x7b\x7d", user_id)`. -/
def presenceKey (user_id : String) : String := "presence:" ++ user_id

/-- Embeds `Cache::get` from `src/redis.rs` lines 68-83: consult the remote
tier first when configured; a remote hit that deserializes is returned, a
remote miss is returned as `None` (no memory fallback on a miss), a remote
error (or a hit that fails to deserialize, or no configured remote) falls
through to the memory tier.  `now` is the remote clock and `rok` whether
this call's round trip succeeds. -/
def cacheGet (st : CacheState) (user_id : String) (now : Int) (rok : Bool) :
    Option PresenceData :=
  if st.remote.configured then
    match remoteGet st.remote (presenceKey user_id) now rok with
    | .found j =>
      match decodePresence j with
      | some data => some data
      | none => st.memory user_id
    | .missing => none
    | .err => st.memory user_id
  else st.memory user_id

/-- Embeds `Cache::set` from `src/redis.rs` lines 85-94: best-effort
`SET EX` with expiry `CACHE_TTL_SECS` on the remote tier when configured —
`wok` says whether this call's write round trip succeeds, and a failed
write is silently dropped (`let _: Result<(), _> = ...`) — then an
unconditional insert into the memory tier. -/
def cacheSet (st : CacheState) (user_id : String) (data : PresenceData)
    (now : Int) (wok : Bool) : CacheState :=
  let remote :=
    if st.remote.configured && wok then
      { st.remote with
        store := fun k =>
          if k = presenceKey user_id then
            some (encodePresence data, now + CACHE_TTL_SECS)
          else st.remote.store k }
    else st.remote
  { remote := remote,
    memory := upd st.memory user_id (some data) }

/-! Model of the per-user subscription cells.  Each cell is one
`tokio::sync::watch` channel (`UserWatchers` in `src/main.rs` line 39): it
holds a single latest value, a version counter that strictly increases on
every `send`, and the current receiver count.  `send` fails exactly when the
channel is closed, i.e. when every receiver has been dropped. -/

/-- One `watch` channel: latest value, send version, receiver count. -/
structure WatchCell where
  value : Option PresenceData
  version : Nat
  receivers : Nat
deriving DecidableEq, Repr

/-- Operation `watch::Sender::send` on a channel that is open: replace the single
stored value and bump the version (waking all observers). -/
def cellSend (c : WatchCell) (pd : PresenceData) : WatchCell :=
  { c with value := some pd, version := c.version + 1 }

/-- Operation `watch::Receiver::borrow_and_update`: read the single latest value and
mark it seen (the observer's seen version becomes the cell's version).  Used
by `ws_loop` in `src/main.rs` line 233. -/
def borrow_and_update (c : WatchCell) : Option PresenceData × Nat :=
  (c.value, c.version)

/-- Whether `rx.changed()` has a pending change for an observer whose last
seen version is `seen`. -/
def watch_changed (c : WatchCell) (seen : Nat) : Bool :=
  decide (seen < c.version)

/-- The shared engine state: the presence cache (`PresenceCache`) and the
per-user subscription cells (`UserWatchers`), both from `src/main.rs`
lines 38-39. -/
structure EngineState where
  cache : String → Option PresenceData
  watchers : String → Option WatchCell

/-- The empty initial state built in `main` (`src/main.rs` lines 262-263). -/
def initEngine : EngineState := ⟨fun _ => none, fun _ => none⟩

/-- Order-of-effects trace entries for the upstream event handler. -/
inductive EngineOp where
  | notifyOp (user_id : String)
  | setOp (user_id : String)
deriving DecidableEq, Repr

/-- Embeds `Handler::presence_update` from `src/discord.rs` lines 26-76:
look up the user's subscription cell and return immediately when none
exists; otherwise attempt `watcher.send` (which fails iff the channel has
no receivers) and, only if the send succeeded, insert the record into the
presence cache.  The second component records the effects in execution
order. -/
def presence_update (st : EngineState) (user_id : String)
    (pd : PresenceData) : EngineState × List EngineOp :=
  match st.watchers user_id with
  | none => (st, [])
  | some cell =>
    if cell.receivers = 0 then (st, [])
    else
      ({ cache := upd st.cache user_id (some pd),
         watchers := upd st.watchers user_id (some (cellSend cell pd)) },
       [.notifyOp user_id, .setOp user_id])

/-- Embeds the subscription step of `ws_handler` (`src/main.rs`
lines 176-180): `watchers.entry(uid).or_insert_with(|| watch::channel(None).0)
.subscribe()` — create the cell with no initial value when absent, then add
one receiver. -/
def subscribe (st : EngineState) (user_id : String) : EngineState :=
  match st.watchers user_id with
  | none =>
    { st with watchers := upd st.watchers user_id (some ⟨none, 0, 1⟩) }
  | some c =>
    { st with
      watchers := upd st.watchers user_id
        (some { c with receivers := c.receivers + 1 }) }

/-- Embeds the end of a delivery session for `user_id`: the session's
receiver is dropped (one fewer receiver on the cell) and then
`WatcherGuard::drop` (`src/main.rs` lines 156-166) runs: if the cell now has
no receivers, both the cell and the user's presence-cache entry are
removed. -/
def release (st : EngineState) (user_id : String) : EngineState :=
  match st.watchers user_id with
  | none => st
  | some c =>
    if c.receivers - 1 = 0 then
      { cache := upd st.cache user_id none,
        watchers := upd st.watchers user_id none }
    else
      { st with
        watchers := upd st.watchers user_id
          (some { c with receivers := c.receivers - 1 }) }

/-- Operations on the shared engine state: a session subscribing to a user,
a session ending (receiver drop plus `WatcherGuard::drop`), and an upstream
presence event. -/
inductive SOp where
  | sub (user_id : String)
  | rel (user_id : String)
  | evt (user_id : String) (pd : PresenceData)

/-- One engine step. -/
def stepS (st : EngineState) : SOp → EngineState
  | .sub u => subscribe st u
  | .rel u => release st u
  | .evt u pd => (presence_update st u pd).1

/-- Run a sequence of operations. -/
def runS (st : EngineState) : List SOp → EngineState
  | [] => st
  | op :: t => runS (stepS st op) t

/-- Net observer count per user id along a trace: subscriptions minus
releases. -/
def cntStep (cnt : String → Nat) : SOp → String → Nat
  | .sub u => fun v => if v = u then cnt v + 1 else cnt v
  | .rel u => fun v => if v = u then cnt v - 1 else cnt v
  | .evt _ _ => cnt

/-- Net observer counts after a trace. -/
def cntRun (cnt : String → Nat) : List SOp → String → Nat
  | [] => cnt
  | op :: t => cntRun (cntStep cnt op) t

/-- All counts zero: no session is active initially. -/
def cnt0 : String → Nat := fun _ => 0

/-- A trace is well formed when every release is performed by a session
that is actually active, i.e. the net observer count of that user is
positive at that point. -/
def wfS (cnt : String → Nat) : List SOp → Bool
  | [] => true
  | .rel u :: t => decide (0 < cnt u) && wfS (cntStep cnt (.rel u)) t
  | op :: t => wfS (cntStep cnt op) t

/-! Model of the per-IP admission controller (`src/main.rs` lines 119-148).
The `DashMap<IpAddr, usize>` is modelled as `String → Option Nat`; a ghost
count of outstanding (not yet dropped) `ConnectionGuard`s per IP is carried
alongside to state the bound. -/

/-- Embeds `try_acquire_connection` from `src/main.rs` lines 136-148:
`entry(ip).or_insert(0)` then reject when the counter is already at
`MAX_CONNECTIONS_PER_IP`, else increment and hand out a guard
(represented by the updated map in `some`). -/
def try_acquire_connection (m : String → Option Nat) (ip : String) :
    Option (String → Option Nat) :=
  let v := (m ip).getD 0
  if MAX_CONNECTIONS_PER_IP ≤ v then none
  else some (upd m ip (some (v + 1)))

/-- Embeds `ConnectionGuard::drop` from `src/main.rs` lines 124-134: when
the entry is occupied, decrement it, removing the entry entirely when it
reaches zero. -/
def connection_guard_drop (m : String → Option Nat) (ip : String) :
    String → Option Nat :=
  match m ip with
  | none => m
  | some v => if v - 1 = 0 then upd m ip none else upd m ip (some (v - 1))

/-- The admission map plus the ghost count of outstanding guards. -/
structure ConnState where
  conns : String → Option Nat
  guards : String → Nat

/-- Initial admission state (`src/main.rs` line 264). -/
def initConn : ConnState := ⟨fun _ => none, fun _ => 0⟩

/-- Admission operations: an incoming connection attempting to acquire a
slot, or a session ending (dropping its guard). -/
inductive COp where
  | acq (ip : String)
  | rel (ip : String)

/-- One admission step.  An `acq` only creates a guard when
`try_acquire_connection` succeeds; a rejected acquire changes nothing. -/
def stepC (s : ConnState) : COp → ConnState
  | .acq ip =>
    match try_acquire_connection s.conns ip with
    | some m => ⟨m, fun v => if v = ip then s.guards v + 1 else s.guards v⟩
    | none => s
  | .rel ip =>
    ⟨connection_guard_drop s.conns ip,
     fun v => if v = ip then s.guards v - 1 else s.guards v⟩

/-- Run a sequence of admission operations. -/
def runC (s : ConnState) : List COp → ConnState
  | [] => s
  | op :: t => runC (stepC s op) t

/-- A trace is well formed when every guard drop is performed by a session
that actually holds a guard. -/
def wfC (s : ConnState) : List COp → Bool
  | [] => true
  | .rel ip :: t => decide (0 < s.guards ip) && wfC (stepC s (.rel ip)) t
  | op :: t => wfC (stepC s op) t

/-! Model of the upstream connector's reconnect loop, `start_discord` in
`src/discord.rs` lines 79-109. -/

/-- Constant `u32::MAX`: the saturation bound of `attempt.saturating_add(1)`. -/
def U32_MAX : Nat := 2 ^ 32 - 1

/-- Embeds `2_u64.saturating_pow(attempt.min(6)).min(60)` from
`src/discord.rs` line 105 (no saturation occurs since the exponent is at
most 6). -/
def backoff_secs (attempt : Nat) : Nat := min (2 ^ (min attempt 6)) 60

/-- One iteration of the reconnect loop: on a successful client creation
the counter is reset to 0 (`src/discord.rs` line 93); after the iteration
ends (client stopped or creation failed) the counter is incremented with
saturation and the loop sleeps `backoff_secs` of the new counter.  Returns
the new counter and the seconds slept. -/
def reconnect_iteration (attempt : Nat) (connect_ok : Bool) : Nat × Nat :=
  let a := if connect_ok then 0 else attempt
  let a2 := min (a + 1) U32_MAX
  (a2, backoff_secs a2)

/-- The counter value when sleeping after the n-th consecutive failing
iteration, starting from the initial `attempt = 0`. -/
def attempt_after_failures : Nat → Nat
  | 0 => 0
  | n + 1 => (reconnect_iteration (attempt_after_failures n) false).1

/-- Seconds slept after the n-th consecutive failure. -/
def sleep_after_failures (n : Nat) : Nat :=
  backoff_secs (attempt_after_failures n)

/-! Model of `GET /v1/\x7buser_id\x7d/in_server` (`user_in_server_handler`,
`src/main.rs` lines 84-105) and `is_member` (`src/discord.rs`
lines 111-123). -/

/-- Constant `u64::MAX`: the range bound of `str::parse::<u64>`. -/
def U64_MAX : Nat := 2 ^ 64 - 1

/-- Decimal value of a digit list. -/
def digitsToNat (l : List Char) : Nat :=
  l.foldl (fun acc c => acc * 10 + (c.toNat - 48)) 0

/-- Embeds Rust `str::parse::<u64>` as used in `src/main.rs` line 85: an
optional leading `+` sign, then one or more ASCII digits, with the value
required to fit in 64 bits; anything else (including the empty string, a
lone sign, or a `-` sign) is an error. -/
def parse_u64 (s : String) : Option Nat :=
  let ds := match s.data with
            | '+' :: rest => rest
            | l => l
  if ds.isEmpty then none
  else if ds.all (fun c => c.isDigit) then
    if digitsToNat ds ≤ U64_MAX then some (digitsToNat ds) else none
  else none

/-- Outcome of the external `http.get_member` call as observed by
`is_member`. -/
inductive MemberApiResult where
  | success
  | httpError (status : Nat)
  | otherError

/-- Embeds `is_member` from `src/discord.rs` lines 111-123: member found
means `Ok(true)`; an HTTP error with status 404 means `Ok(false)`; any
other error is surfaced as `Err`. -/
def is_member (api : MemberApiResult) : Except String Bool :=
  match api with
  | .success => .ok true
  | .httpError status =>
    if status = 404 then .ok false else .error "discord api error"
  | .otherError => .error "discord api error"

/-- The observable outcome of `user_in_server_handler`. -/
inductive InServerResp where
  /-- Status 400 with body `\x7b"error": "invalid user id"\x7d`. -/
  | badRequest
  /-- Status 200 with body `\x7b"in_server": b\x7d`. -/
  | ok (in_server : Bool)
  /-- Status 500 with the collaborator error surfaced as `\x7b"error": ...\x7d`. -/
  | internalError
deriving DecidableEq, Repr

/-- Embeds `user_in_server_handler` from `src/main.rs` lines 84-105: the id
is validated by `parse::<u64>()` (not by `validate_user_id`); parse failure
is a 400, a successful membership answer is a 200, a collaborator error is
a 500. -/
def user_in_server_handler (user_id : String) (api : MemberApiResult) :
    InServerResp :=
  match parse_u64 user_id with
  | none => .badRequest
  | some _ =>
    match is_member api with
    | .ok b => .ok b
    | .error _ => .internalError

/-- Embeds the admission decisions of the WebSocket route's `on_upgrade`
closure, `src/main.rs` lines 288-300: an id failing `validate_user_id`
returns before touching any state; otherwise a connection slot is acquired
(or the connection is refused, leaving the map unchanged).  The `Bool`
says whether a session starts. -/
def ws_upgrade_admission (conns : String → Option Nat) (user_id ip : String) :
    Bool × (String → Option Nat) :=
  if validate_user_id user_id = false then (false, conns)
  else
    match try_acquire_connection conns ip with
    | some m => (true, m)
    | none => (false, conns)

/-- Invariant tying the subscription registry to the net observer counts:
a user either has no cell and count zero, or a cell whose receiver count is
the positive net observer count. -/
def InvS (st : EngineState) (cnt : String → Nat) : Prop :=
  ∀ u, (cnt u = 0 ∧ st.watchers u = none) ∨
       (∃ c, st.watchers u = some c ∧ c.receivers = cnt u ∧ 0 < cnt u)

/-- Invariant of the admission controller: per IP, the counter entry is
absent exactly when no guard is outstanding, stores the number of
outstanding guards otherwise, and that number never exceeds the limit. -/
def InvC (s : ConnState) : Prop :=
  ∀ ip, s.guards ip ≤ MAX_CONNECTIONS_PER_IP ∧
        s.conns ip = (if s.guards ip = 0 then none else some (s.guards ip))

/-! Concrete inputs used by the witness theorems. -/

/-- A concrete presence record. -/
def pd0 : PresenceData := ⟨"1", none, 0⟩

/-- A second, different concrete presence record. -/
def pd1 : PresenceData := ⟨"1", none, 1⟩

/-- A concrete open watch cell with one receiver. -/
def cw0 : WatchCell := ⟨none, 0, 1⟩

/-- An engine state whose only subscription cell is for user `"1"`. -/
def stOneCell : EngineState :=
  ⟨fun _ => none, fun k => if k = "1" then some cw0 else none⟩

/-- A concrete engine trace: one subscriber of `"7"`, then an upstream
event for `"7"`. -/
def t4w : List SOp := [.sub "7", .evt "7" pd0]

/-- A concrete admission trace: one accepted connection. -/
def t5w : List COp := [.acq "9.9.9.9"]

/-- A cache state with no remote tier configured and empty memory. -/
def cst0 : CacheState := ⟨⟨false, fun _ => none⟩, fun _ => none⟩

/-- A cache state with a configured remote tier whose store is empty, and
empty memory. -/
def cstR : CacheState := ⟨⟨true, fun _ => none⟩, fun _ => none⟩

/-- A presence cache holding `pd0` for user `"5"`. -/
def cache6 : String → Option PresenceData :=
  fun k => if k = "5" then some pd0 else none

/-- The 20-nines id: within the identifier grammar but above `u64::MAX`. -/
def twentyNines : String := "99999999999999999999"

/-- An id with a leading sign: outside the identifier grammar but accepted
by `str::parse::<u64>`. -/
def plusId : String := "+123"

/-! ## Helper lemmas -/

theorem decodeSpotify_encodeSpotify (a : SpotifyActivity) :
    decodeSpotify (encodeSpotify a) = some a := by
  obtain ⟨t, ar, al, u, st, en⟩ := a
  cases t <;> cases ar <;> cases al <;> cases u <;> cases st <;> cases en <;> rfl

theorem decodePresence_encodePresence (d : PresenceData) :
    decodePresence (encodePresence d) = some d := by
  obtain ⟨uid, sp, ts⟩ := d
  cases sp with
  | none => rfl
  | some a =>
    obtain ⟨t, ar, al, u, st, en⟩ := a
    cases t <;> cases ar <;> cases al <;> cases u <;> cases st <;> cases en <;> rfl

theorem utf8Size_of_isDigit (c : Char) (h : c.isDigit = true) :
    c.utf8Size = 1 := by
  simp [Char.isDigit] at h
  unfold Char.utf8Size
  rw [if_pos]
  show c.val.toNat ≤ 127
  have h3 : c.val.toNat ≤ 57 := h.2
  omega

theorem sum_utf8_of_digits (l : List Char) (h : ∀ c ∈ l, c.isDigit = true) :
    (l.map Char.utf8Size).sum = l.length := by
  induction l with
  | nil => rfl
  | cons c t ih =>
    simp only [List.map_cons, List.sum_cons, List.length_cons]
    rw [utf8Size_of_isDigit c (h c (List.mem_cons_self c t)),
        ih (fun x hx => h x (List.mem_cons_of_mem c hx))]
    omega

theorem attempt_after_failures_eq (n : Nat) :
    attempt_after_failures n = min n U32_MAX := by
  have h32 : U32_MAX = 4294967295 := by norm_num [U32_MAX]
  induction n with
  | zero => simp [attempt_after_failures]
  | succ k ih =>
    have hit : (reconnect_iteration (attempt_after_failures k) false).1
        = min (attempt_after_failures k + 1) U32_MAX := rfl
    rw [attempt_after_failures, hit, ih, h32]
    rw [h32] at *
    omega

/-! ## Claim theorems -/

/-- C3 counterexample: the claim (and the spec) say the empty string is
rejected by the identifier validation, but `validate_user_id` accepts it —
its length is 0 ≤ 20 and `chars().all(is_ascii_digit)` is vacuously true on
no characters. -/
theorem c3_empty_string_accepted : validate_user_id "" = true := by decide

/-- C3 (amended): the identifier validation accepts exactly the strings of
at most 20 characters consisting only of ASCII digits — a set that contains
the empty string, which is therefore accepted, not rejected.  `"123"` and
`"00009"` are accepted; `"abc"`, `"-1"` and a 21-digit string are rejected;
and a rejected id produces the 400 response with no side effect: the GET
handler returns the cache untouched and the WebSocket upgrade path returns
before acquiring an admission slot. -/
theorem c3_identifier_grammar (s : String) :
    (validate_user_id s = true ↔
      (s.data.length ≤ 20 ∧ ∀ c ∈ s.data, c.isDigit = true)) ∧
    (validate_user_id "123" = true ∧ validate_user_id "00009" = true ∧
     validate_user_id "abc" = false ∧ validate_user_id "-1" = false ∧
     validate_user_id "999999999999999999999" = false ∧
     validate_user_id "" = true) ∧
    (∀ (cache : String → Option PresenceData) (now : Int) (uid : String),
      validate_user_id uid = false →
      get_presence_handler cache now uid = (.badRequest, cache)) ∧
    (∀ (conns : String → Option Nat) (uid ip : String),
      validate_user_id uid = false →
      ws_upgrade_admission conns uid ip = (false, conns)) := by
  refine ⟨?_, by decide, ?_, ?_⟩
  · unfold validate_user_id
    rw [Bool.and_eq_true, decide_eq_true_eq, List.all_eq_true]
    constructor
    · rintro ⟨h1, h2⟩
      have hd : ∀ c ∈ s.data, c.isDigit = true := fun c hc => h2 c hc
      refine ⟨?_, hd⟩
      rw [rustStrLen, sum_utf8_of_digits s.data hd] at h1
      exact h1
    · rintro ⟨h1, h2⟩
      refine ⟨?_, fun c hc => h2 c hc⟩
      rw [rustStrLen, sum_utf8_of_digits s.data h2]
      exact h1
  · intro cache now uid hv
    simp [get_presence_handler, hv]
  · intro conns uid ip hv
    simp [ws_upgrade_admission, hv]

/-- C3 witness: a concrete rejected id reaches the 400 branch with the
cache unchanged. -/
theorem c3_identifier_grammar_witness :
    validate_user_id "abc" = false ∧
    get_presence_handler (fun _ => none) 0 "abc" =
      (HttpResp.badRequest, fun _ => none) :=
  ⟨by decide,
   (c3_identifier_grammar "abc").2.2.1 (fun _ => none) 0 "abc" (by decide)⟩

/-- C6: for an id passing `validate_user_id`, `GET /v1/\x7buser_id\x7d`
returns 200 with the record iff a cache entry exists whose age
`now - timestamp_ms` is at most 300000 ms; an absent entry gives 404 with
the cache unchanged; a stale entry gives 404 and is evicted, so a
subsequent get observes it absent; an id failing the grammar gives 400. -/
theorem c6_get_endpoint (cache : String → Option PresenceData)
    (now now2 : Int) (uid : String) (p : PresenceData) :
    (validate_user_id uid = false →
      get_presence_handler cache now uid = (.badRequest, cache)) ∧
    (validate_user_id uid = true →
      ((cache uid = some p → now - p.timestamp_ms ≤ 300000 →
          get_presence_handler cache now uid = (.ok p, cache)) ∧
       (cache uid = none →
          get_presence_handler cache now uid = (.notFound, cache)) ∧
       (cache uid = some p → 300000 < now - p.timestamp_ms →
          (get_presence_handler cache now uid).1 = .notFound ∧
          (get_presence_handler cache now uid).2 uid = none ∧
          (get_presence_handler
            ((get_presence_handler cache now uid).2) now2 uid).1 =
              .notFound))) := by
  constructor
  · intro hv
    simp [get_presence_handler, hv]
  · intro hv
    refine ⟨?_, ?_, ?_⟩
    · intro hc hfresh
      have hst : is_presence_stale now p = false := by
        simp [is_presence_stale, PRESENCE_TTL_MS]
        omega
      simp [get_presence_handler, hv, hc, hst]
    · intro hc
      simp [get_presence_handler, hv, hc]
    · intro hc hstale
      have hst : is_presence_stale now p = true := by
        simp [is_presence_stale, PRESENCE_TTL_MS]
        omega
      have hh : get_presence_handler cache now uid =
          (.notFound, upd cache uid none) := by
        simp [get_presence_handler, hv, hc, hst]
      rw [hh]
      refine ⟨rfl, ?_, ?_⟩
      · simp [upd]
      · simp [get_presence_handler, hv, upd]

/-- C6 witness: a fresh record for user `"5"` is served with status 200. -/
theorem c6_get_endpoint_witness :
    validate_user_id "5" = true ∧
    get_presence_handler cache6 100 "5" = (HttpResp.ok pd0, cache6) :=
  ⟨by decide,
   ((c6_get_endpoint cache6 100 0 "5" pd0).2 (by decide)).1
     (by decide) (by decide)⟩

/-- C2 counterexample: the observable result of get after a set is NOT
independent of the remote tier.  `Cache::set` silently drops a failed
`set_ex` while still writing the memory tier; a later successful remote
`GET` then answers `Ok(None)`, which `Cache::get` returns as `None` without
consulting memory — whereas the identical scenario with no remote tier
configured returns the record from memory.  The remote 300-second expiry
produces the same divergence even when the write succeeded. -/
theorem c2_counterexample :
    (cacheSet cstR "1" pd0 0 false).memory "1" = some pd0 ∧
    cacheGet (cacheSet cstR "1" pd0 0 false) "1" 1 true = none ∧
    cacheGet (cacheSet cst0 "1" pd0 0 false) "1" 1 true = some pd0 ∧
    cacheGet (cacheSet cstR "1" pd0 0 true) "1" 301 true = none := by
  refine ⟨rfl, rfl, rfl, ?_⟩
  simp [cacheGet, cacheSet, cstR, remoteGet, presenceKey, CACHE_TTL_SECS]

/-- C2 (amended): `Cache::get` consults the remote tier first when one is
configured (a fresh remote hit wins), and falls back to the memory tier on
a remote call error or absence of configuration; `Cache::set` always writes
the memory tier.  A get after a set observes the written record when no
remote tier is configured, when the remote read errors (memory fallback),
or when the set's remote write succeeded and the read succeeds within the
300-second remote expiry.  However, when a remote read succeeds after the
set's remote write was silently dropped (or after remote expiry), the
remote answer — absence, or a stale record — masks the memory tier, so the
memory tier is the source of truth only for the fallback paths. -/
theorem c2_tiered_cache_amended (st : CacheState) (uid : String)
    (d : PresenceData) (dl now nr : Int) (w rok : Bool) :
    (st.remote.configured = false → cacheGet st uid nr rok = st.memory uid) ∧
    (cacheGet st uid nr false = st.memory uid) ∧
    (st.remote.configured = true →
      st.remote.store (presenceKey uid) = some (encodePresence d, dl) →
      nr < dl → cacheGet st uid nr true = some d) ∧
    ((cacheSet st uid d now w).memory uid = some d) ∧
    (st.remote.configured = false →
      cacheGet (cacheSet st uid d now w) uid nr rok = some d) ∧
    (cacheGet (cacheSet st uid d now w) uid nr false = some d) ∧
    (nr < now + CACHE_TTL_SECS →
      cacheGet (cacheSet st uid d now true) uid nr true = some d) := by
  obtain ⟨⟨conf, store⟩, mem⟩ := st
  refine ⟨?_, ?_, ?_, ?_, ?_, ?_, ?_⟩
  · intro h
    simp at h
    simp [cacheGet, h]
  · cases conf <;> simp [cacheGet, remoteGet]
  · intro h1 h2 h3
    simp at h1 h2
    simp [cacheGet, remoteGet, h1, h2, h3, decodePresence_encodePresence]
  · simp [cacheSet, upd]
  · intro h
    simp at h
    simp [cacheGet, cacheSet, h, upd]
  · cases conf <;> cases w <;>
      simp [cacheGet, cacheSet, remoteGet, upd]
  · intro h
    cases conf
    · simp [cacheGet, cacheSet, remoteGet, upd]
    · simp [cacheGet, cacheSet, remoteGet, upd, h,
        decodePresence_encodePresence]

/-- C2 witness: with no remote tier configured, a get is exactly a memory
lookup. -/
theorem c2_tiered_cache_amended_witness :
    cst0.remote.configured = false ∧
    cacheGet cst0 "1" 0 true = cst0.memory "1" :=
  ⟨rfl, (c2_tiered_cache_amended cst0 "1" pd0 0 0 0 true true).1 rfl⟩

/-- C7 counterexample: get after `set(u, r1)` then `set(u, r2)` can return
`r1`, not `r2` — when `r1`'s remote write succeeded, `r2`'s remote write
was silently dropped (`set_ex` result ignored), and the later remote read
succeeds, `Cache::get` serves the stale `r1` from the remote tier and never
consults the memory tier that holds `r2`. -/
theorem c7_counterexample :
    pd0 ≠ pd1 ∧
    (cacheSet (cacheSet cstR "1" pd0 0 true) "1" pd1 1 false).memory "1" =
      some pd1 ∧
    cacheGet (cacheSet (cacheSet cstR "1" pd0 0 true) "1" pd1 1 false)
      "1" 2 true = some pd0 := by
  refine ⟨by decide, rfl, ?_⟩
  simp [cacheGet, cacheSet, cstR, remoteGet, presenceKey, upd,
    CACHE_TTL_SECS, decodePresence_encodePresence, pd0, pd1]

/-- C7 (amended): a second `set` for the same user id unconditionally
replaces the first in the memory tier, so after `set(u, r1)` then
`set(u, r2)` the memory tier holds exactly `r2`'s fields; `get(u)` returns
exactly `r2` — never a field-wise merge of `r1` and `r2` — when no remote
tier is configured, when the remote read errors (memory fallback), or when
`r2`'s remote write succeeded and the read succeeds within the remote
expiry.  When `r2`'s remote write was silently dropped, a succeeding
remote read may instead serve the whole prior record `r1` (or report
absence). -/
theorem c7_last_write_wins_amended (st : CacheState) (uid : String)
    (r1 r2 : PresenceData) (n1 n2 nr : Int) (w1 w2 rok : Bool) :
    ((cacheSet (cacheSet st uid r1 n1 w1) uid r2 n2 w2).memory uid =
      some r2) ∧
    (st.remote.configured = false →
      cacheGet (cacheSet (cacheSet st uid r1 n1 w1) uid r2 n2 w2) uid nr rok
        = some r2) ∧
    (cacheGet (cacheSet (cacheSet st uid r1 n1 w1) uid r2 n2 w2) uid nr false
      = some r2) ∧
    (nr < n2 + CACHE_TTL_SECS →
      cacheGet (cacheSet (cacheSet st uid r1 n1 w1) uid r2 n2 true) uid nr
        true = some r2) := by
  obtain ⟨⟨conf, store⟩, mem⟩ := st
  refine ⟨?_, ?_, ?_, ?_⟩
  · simp [cacheSet, upd]
  · intro h
    simp at h
    simp [cacheGet, cacheSet, h, upd]
  · cases conf <;> cases w1 <;> cases w2 <;>
      simp [cacheGet, cacheSet, remoteGet, upd]
  · intro h
    cases conf
    · simp [cacheGet, cacheSet, remoteGet, upd]
    · cases w1 <;>
        simp [cacheGet, cacheSet, remoteGet, upd, h,
          decodePresence_encodePresence]

/-- C7 witness: with both remote writes succeeding and a fresh successful
read, get returns the second record exactly. -/
theorem c7_last_write_wins_amended_witness :
    (0 : Int) < 1 + CACHE_TTL_SECS ∧
    cacheGet (cacheSet (cacheSet cstR "1" pd0 0 true) "1" pd1 1 true)
      "1" 0 true = some pd1 :=
  ⟨by decide,
   (c7_last_write_wins_amended cstR "1" pd0 pd1 0 1 0 true true
     true).2.2.2 (by decide)⟩

/-- C10: the `in_server` endpoint validates by `parse::<u64>()`, not by
`validate_user_id`, and the two accept different id sets: twenty nines
passes the identifier grammar but is rejected by `in_server` with 400
(it exceeds `u64::MAX`), while `"+123"` fails the grammar but is accepted
by `in_server`; and a collaborator HTTP 404 yields a 200 response with
`in_server = false`, not an error. -/
theorem c10_in_server_divergence :
    validate_user_id twentyNines = true ∧
    parse_u64 twentyNines = none ∧
    (∀ api, user_in_server_handler twentyNines api = .badRequest) ∧
    validate_user_id plusId = false ∧
    parse_u64 plusId = some 123 ∧
    user_in_server_handler plusId MemberApiResult.success = .ok true ∧
    user_in_server_handler "123" (MemberApiResult.httpError 404) =
      .ok false := by
  refine ⟨by decide, by decide, ?_, by decide, by decide, by decide,
          by decide⟩
  intro api
  have h : parse_u64 twentyNines = none := by decide
  unfold user_in_server_handler
  rw [h]

/-- C9: the reconnect loop's sleep after the n-th consecutive failure
starts at the 2-second base, doubles per attempt and is capped at 60
seconds — 2, 4, 8, 16, 32, 60, 60, ... — and a successful client creation
resets the counter so the next failure sleeps the base interval again. -/
theorem c9_reconnect_backoff (a n : Nat) :
    reconnect_iteration a true = (1, 2) ∧
    (1 ≤ n → n ≤ 5 → sleep_after_failures n = 2 ^ n) ∧
    (6 ≤ n → sleep_after_failures n = 60) ∧
    (sleep_after_failures 1 = 2 ∧ sleep_after_failures 2 = 4 ∧
     sleep_after_failures 3 = 8 ∧ sleep_after_failures 4 = 16 ∧
     sleep_after_failures 5 = 32 ∧ sleep_after_failures 6 = 60 ∧
     sleep_after_failures 7 = 60) := by
  have h32 : U32_MAX = 4294967295 := by norm_num [U32_MAX]
  refine ⟨?_, ?_, ?_, by decide, by decide, by decide, by decide, by decide,
          by decide, by decide⟩
  · simp [reconnect_iteration, backoff_secs, h32]
  · intro h1 h5
    interval_cases n <;> decide
  · intro h6
    rw [sleep_after_failures, attempt_after_failures_eq, backoff_secs]
    have hm : min (min n U32_MAX) 6 = 6 := by
      rw [h32] at *
      omega
    rw [hm]
    norm_num

/-- C9 witness: the third consecutive failure sleeps 8 seconds. -/
theorem c9_reconnect_backoff_witness :
    (1 ≤ 3 ∧ 3 ≤ 5) ∧ sleep_after_failures 3 = 2 ^ 3 :=
  ⟨by decide, (c9_reconnect_backoff 0 3).2.1 (by decide) (by decide)⟩

/-- C1 counterexample: an upstream event for a user with no subscription
cell stores nothing — the handler returns before `cache.insert`, so the
record is not durably stored, contrary to the claim; and when a cell does
exist the effect order is notify first, then set. -/
theorem c1_counterexample :
    (presence_update initEngine "1" pd0).1.cache "1" = none ∧
    (presence_update stOneCell "1" pd0).2 =
      [EngineOp.notifyOp "1", EngineOp.setOp "1"] := by
  constructor
  · rfl
  · rfl

/-- C1 (amended): `Handler::presence_update` is a no-op when no
subscription cell exists for the user id (the record is not stored); when
a cell with live receivers exists, it notifies the subscribers first and
then stores the record in the presence cache (the store happens only on a
successful notify). -/
theorem c1_event_handler_amended (st : EngineState) (uid : String)
    (pd : PresenceData) :
    (st.watchers uid = none → presence_update st uid pd = (st, [])) ∧
    (∀ c, st.watchers uid = some c → 0 < c.receivers →
      (presence_update st uid pd).2 =
        [EngineOp.notifyOp uid, EngineOp.setOp uid] ∧
      (presence_update st uid pd).1.cache uid = some pd ∧
      (presence_update st uid pd).1.watchers uid = some (cellSend c pd)) := by
  constructor
  · intro h
    simp [presence_update, h]
  · intro c hc hr
    have hnz : ¬(c.receivers = 0) := by omega
    simp [presence_update, hc, hnz, upd]

/-- C1 witness: with one live subscriber of `"1"`, the handler notifies
then stores the record. -/
theorem c1_event_handler_amended_witness :
    stOneCell.watchers "1" = some cw0 ∧ 0 < cw0.receivers ∧
    (presence_update stOneCell "1" pd0).2 =
      [EngineOp.notifyOp "1", EngineOp.setOp "1"] ∧
    (presence_update stOneCell "1" pd0).1.cache "1" = some pd0 :=
  ⟨rfl, by decide,
   ((c1_event_handler_amended stOneCell "1" pd0).2 cw0 rfl (by decide)).1,
   ((c1_event_handler_amended stOneCell "1" pd0).2 cw0 rfl (by decide)).2.1⟩

/-- C8: the subscription cell is latest-value-wins, not a queue: after
`send r1` then `send r2` with no consumption in between, the cell holds
only `r2` (a single pending value), the observer's next
`borrow_and_update` yields `r2` and never `r1`, and after consuming there
is no further pending change until a new send. -/
theorem c8_collapsing_delivery (c : WatchCell) (seen : Nat)
    (r1 r2 : PresenceData) :
    (cellSend (cellSend c r1) r2).value = some r2 ∧
    (watch_changed (cellSend (cellSend c r1) r2) seen = true →
      (borrow_and_update (cellSend (cellSend c r1) r2)).1 = some r2) ∧
    (r1 ≠ r2 → (cellSend (cellSend c r1) r2).value ≠ some r1) ∧
    watch_changed (cellSend (cellSend c r1) r2)
      (borrow_and_update (cellSend (cellSend c r1) r2)).2 = false := by
  refine ⟨rfl, fun _ => rfl, ?_, ?_⟩
  · intro hne hcontra
    simp [cellSend] at hcontra
    exact hne hcontra.symm
  · simp [watch_changed, borrow_and_update]

/-- C8 witness: two concrete distinct records published back to back; the
slow observer sees only the second. -/
theorem c8_collapsing_delivery_witness :
    pd0 ≠ pd1 ∧ (cellSend (cellSend cw0 pd0) pd1).value ≠ some pd0 ∧
    watch_changed (cellSend (cellSend cw0 pd0) pd1) 0 = true ∧
    (borrow_and_update (cellSend (cellSend cw0 pd0) pd1)).1 = some pd1 :=
  ⟨by decide, (c8_collapsing_delivery cw0 0 pd0 pd1).2.2.1 (by decide),
   by decide, (c8_collapsing_delivery cw0 0 pd0 pd1).2.1 (by decide)⟩

theorem runS_append (t1 t2 : List SOp) :
    ∀ st : EngineState, runS st (t1 ++ t2) = runS (runS st t1) t2 := by
  induction t1 with
  | nil => intro st; rfl
  | cons op t ih => intro st; exact ih (stepS st op)

theorem invS_step (st : EngineState) (cnt : String → Nat) (op : SOp)
    (h : InvS st cnt)
    (hwf : ∀ u, op = SOp.rel u → 0 < cnt u) :
    InvS (stepS st op) (cntStep cnt op) := by
  cases op with
  | sub w =>
    intro u
    by_cases hu : u = w
    · subst hu
      rcases h u with ⟨h0, hn⟩ | ⟨c, hc, hr, hp⟩
      · right
        refine ⟨⟨none, 0, 1⟩, ?_, ?_, ?_⟩
        · simp [stepS, subscribe, hn, upd]
        · simp [cntStep, h0]
        · simp [cntStep]
      · right
        refine ⟨{ c with receivers := c.receivers + 1 }, ?_, ?_, ?_⟩
        · simp [stepS, subscribe, hc, upd]
        · simp [cntStep, hr]
        · simp [cntStep]
    · have hw : (stepS st (SOp.sub w)).watchers u = st.watchers u := by
        rcases hcw : st.watchers w with _ | c <;>
          simp [stepS, subscribe, hcw, upd, hu]
      have hcnt : cntStep cnt (SOp.sub w) u = cnt u := by simp [cntStep, hu]
      rcases h u with ⟨h0, hn⟩ | ⟨c, hc, hr, hp⟩
      · exact Or.inl ⟨by rw [hcnt]; exact h0, by rw [hw]; exact hn⟩
      · exact Or.inr ⟨c, by rw [hw]; exact hc, by rw [hcnt]; exact hr,
          by rw [hcnt]; exact hp⟩
  | rel w =>
    intro u
    by_cases hu : u = w
    · subst hu
      have hp := hwf u rfl
      rcases h u with ⟨h0, hn⟩ | ⟨c, hc, hr, _⟩
      · omega
      · by_cases h1 : cnt u = 1
        · refine Or.inl ⟨by simp [cntStep, h1], ?_⟩
          have hz : c.receivers - 1 = 0 := by omega
          simp [stepS, release, hc, hz, upd]
        · refine Or.inr ⟨{ c with receivers := c.receivers - 1 }, ?_, ?_, ?_⟩
          · have hz : ¬(c.receivers - 1 = 0) := by omega
            simp [stepS, release, hc, hz, upd]
          · simp [cntStep, hr]
          · simp [cntStep]; omega
    · have hw : (stepS st (SOp.rel w)).watchers u = st.watchers u := by
        rcases hcw : st.watchers w with _ | c
        · simp [stepS, release, hcw]
        · by_cases h1 : c.receivers - 1 = 0 <;>
            simp [stepS, release, hcw, h1, upd, hu]
      have hcnt : cntStep cnt (SOp.rel w) u = cnt u := by simp [cntStep, hu]
      rcases h u with ⟨h0, hn⟩ | ⟨c, hc, hr, hp2⟩
      · exact Or.inl ⟨by rw [hcnt]; exact h0, by rw [hw]; exact hn⟩
      · exact Or.inr ⟨c, by rw [hw]; exact hc, by rw [hcnt]; exact hr,
          by rw [hcnt]; exact hp2⟩
  | evt w pd =>
    intro u
    have hcnt : cntStep cnt (SOp.evt w pd) u = cnt u := rfl
    by_cases hu : u = w
    · subst hu
      rcases h u with ⟨h0, hn⟩ | ⟨c, hc, hr, hp⟩
      · refine Or.inl ⟨by rw [hcnt]; exact h0, ?_⟩
        simp [stepS, presence_update, hn]
      · have hnz : ¬(c.receivers = 0) := by omega
        refine Or.inr ⟨cellSend c pd, ?_, ?_, ?_⟩
        · simp [stepS, presence_update, hc, hnz, upd]
        · simp [cellSend, hr, cntStep]
        · rw [hcnt]; exact hp
    · have hw : (stepS st (SOp.evt w pd)).watchers u = st.watchers u := by
        rcases hcw : st.watchers w with _ | c
        · simp [stepS, presence_update, hcw]
        · by_cases hz : c.receivers = 0 <;>
            simp [stepS, presence_update, hcw, hz, upd, hu]
      rcases h u with ⟨h0, hn⟩ | ⟨c, hc, hr, hp⟩
      · exact Or.inl ⟨by rw [hcnt]; exact h0, by rw [hw]; exact hn⟩
      · exact Or.inr ⟨c, by rw [hw]; exact hc, by rw [hcnt]; exact hr,
          by rw [hcnt]; exact hp⟩

theorem invS_run (t : List SOp) :
    ∀ (st : EngineState) (cnt : String → Nat),
      InvS st cnt → wfS cnt t = true → InvS (runS st t) (cntRun cnt t) := by
  induction t with
  | nil => intro st cnt h _; exact h
  | cons op t ih =>
    intro st cnt h hwf
    cases op with
    | sub u =>
      exact ih _ _
        (invS_step st cnt (SOp.sub u) h (fun v hv => SOp.noConfusion hv))
        (by simpa [wfS] using hwf)
    | rel u =>
      simp only [wfS, Bool.and_eq_true, decide_eq_true_eq] at hwf
      refine ih _ _ (invS_step st cnt (SOp.rel u) h ?_) hwf.2
      intro v hv
      injection hv with he
      subst he
      exact hwf.1
    | evt u pd =>
      exact ih _ _
        (invS_step st cnt (SOp.evt u pd) h (fun v hv => SOp.noConfusion hv))
        (by simpa [wfS] using hwf)

/-- C4: along every well-formed sequence of subscribe, release and
upstream-event operations, a user's subscription cell exists iff the net
observer count is positive; and a release performed when the net count is
1 (the transition to 0) removes both the cell and the user's
presence-cache entry. -/
theorem c4_subscription_lifecycle (t : List SOp) (u : String)
    (hwf : wfS cnt0 t = true) :
    ((runS initEngine t).watchers u ≠ none ↔ 0 < cntRun cnt0 t u) ∧
    (cntRun cnt0 t u = 1 →
      (runS initEngine (t ++ [SOp.rel u])).watchers u = none ∧
      (runS initEngine (t ++ [SOp.rel u])).cache u = none) := by
  have hinv := invS_run t initEngine cnt0 (fun v => Or.inl ⟨rfl, rfl⟩) hwf
  constructor
  · constructor
    · intro hne
      rcases hinv u with ⟨h0, hn⟩ | ⟨c, hc, hr, hp⟩
      · exact absurd hn hne
      · exact hp
    · intro hpos
      rcases hinv u with ⟨h0, hn⟩ | ⟨c, hc, hr, hp⟩
      · omega
      · rw [hc]
        simp
  · intro h1
    rcases hinv u with ⟨h0, hn⟩ | ⟨c, hc, hr, hp⟩
    · omega
    · rw [runS_append]
      have hz : c.receivers - 1 = 0 := by omega
      constructor
      · simp [runS, stepS, release, hc, hz, upd]
      · simp [runS, stepS, release, hc, hz, upd]

/-- C4 witness: one subscriber of user `"7"` plus one upstream event, then
the subscriber leaves: the cell and the cache entry are both gone. -/
theorem c4_subscription_lifecycle_witness :
    wfS cnt0 t4w = true ∧ cntRun cnt0 t4w "7" = 1 ∧
    ((runS initEngine (t4w ++ [SOp.rel "7"])).watchers "7" = none ∧
     (runS initEngine (t4w ++ [SOp.rel "7"])).cache "7" = none) :=
  ⟨by decide, by decide,
   (c4_subscription_lifecycle t4w "7" (by decide)).2 (by decide)⟩

theorem runC_append (t1 t2 : List COp) :
    ∀ s : ConnState, runC s (t1 ++ t2) = runC (runC s t1) t2 := by
  induction t1 with
  | nil => intro s; rfl
  | cons op t ih => intro s; exact ih (stepC s op)

theorem invC_step (s : ConnState) (op : COp) (h : InvC s)
    (hwf : ∀ ip, op = COp.rel ip → 0 < s.guards ip) :
    InvC (stepC s op) := by
  cases op with
  | acq ip =>
    obtain ⟨hb, hc⟩ := h ip
    have hval : (s.conns ip).getD 0 = s.guards ip := by
      rw [hc]
      by_cases h0 : s.guards ip = 0 <;> simp [h0]
    by_cases hfull : MAX_CONNECTIONS_PER_IP ≤ s.guards ip
    · have hstep : stepC s (COp.acq ip) = s := by
        simp [stepC, try_acquire_connection, hval, hfull]
      rw [hstep]
      exact h
    · intro v
      by_cases hv : v = ip
      · subst hv
        constructor
        · simp only [stepC, try_acquire_connection, hval, if_neg hfull]
          simp [MAX_CONNECTIONS_PER_IP] at hfull ⊢
          omega
        · simp [stepC, try_acquire_connection, hval, hfull, upd]
      · obtain ⟨hb2, hc2⟩ := h v
        constructor
        · simpa [stepC, try_acquire_connection, hval, hfull, upd, hv] using hb2
        · simpa [stepC, try_acquire_connection, hval, hfull, upd, hv] using hc2
  | rel ip =>
    have hp := hwf ip rfl
    obtain ⟨hb, hc⟩ := h ip
    have hcs : s.conns ip = some (s.guards ip) := by
      rw [hc]
      have : ¬(s.guards ip = 0) := by omega
      simp [this]
    intro v
    by_cases hv : v = ip
    · subst hv
      constructor
      · simp only [stepC]
        simp [MAX_CONNECTIONS_PER_IP] at hb ⊢
        omega
      · by_cases h1 : s.guards v - 1 = 0
        · simp [stepC, connection_guard_drop, hcs, h1, upd]
        · simp [stepC, connection_guard_drop, hcs, h1, upd]
    · obtain ⟨hb2, hc2⟩ := h v
      constructor
      · simpa [stepC, hv] using hb2
      · by_cases h1 : s.guards ip - 1 = 0 <;>
          simpa [stepC, connection_guard_drop, hcs, h1, upd, hv] using hc2

theorem invC_run (t : List COp) :
    ∀ s : ConnState, InvC s → wfC s t = true → InvC (runC s t) := by
  induction t with
  | nil => intro s h _; exact h
  | cons op t ih =>
    intro s h hwf
    cases op with
    | acq ip =>
      exact ih _
        (invC_step s (COp.acq ip) h (fun v hv => COp.noConfusion hv))
        (by simpa [wfC] using hwf)
    | rel ip =>
      simp only [wfC, Bool.and_eq_true, decide_eq_true_eq] at hwf
      refine ih _ (invC_step s (COp.rel ip) h ?_) hwf.2
      intro v hv
      injection hv with he
      subst he
      exact hwf.1

/-- C5: along every well-formed sequence of `try_acquire_connection` and
guard drops, the number of outstanding (un-released) guards for an IP
never exceeds 10; an acquire rejected at the cap leaves the whole state
unchanged; and a release that brings the count to 0 removes the IP's map
entry entirely. -/
theorem c5_admission_bound (t : List COp) (ip : String)
    (hwf : wfC initConn t = true) :
    (runC initConn t).guards ip ≤ 10 ∧
    ((runC initConn t).guards ip = 10 →
      runC initConn (t ++ [COp.acq ip]) = runC initConn t) ∧
    ((runC initConn t).guards ip = 1 →
      (runC initConn (t ++ [COp.rel ip])).conns ip = none ∧
      (runC initConn (t ++ [COp.rel ip])).guards ip = 0) := by
  have hinv := invC_run t initConn (fun v => ⟨by simp [initConn,
    MAX_CONNECTIONS_PER_IP], by simp [initConn]⟩) hwf
  obtain ⟨hb, hc⟩ := hinv ip
  refine ⟨by simpa [MAX_CONNECTIONS_PER_IP] using hb, ?_, ?_⟩
  · intro h10
    rw [runC_append]
    have hcs : (runC initConn t).conns ip = some 10 := by
      rw [hc, h10]
      simp
    have hval : ((runC initConn t).conns ip).getD 0 = 10 := by
      rw [hcs]
      rfl
    simp [runC, stepC, try_acquire_connection, hval, MAX_CONNECTIONS_PER_IP]
  · intro h1
    rw [runC_append]
    have hcs : (runC initConn t).conns ip = some 1 := by
      rw [hc, h1]
      simp
    constructor
    · simp [runC, stepC, connection_guard_drop, hcs, upd]
    · simp [runC, stepC, h1]

/-- C5 witness: one accepted connection from a concrete IP; the bound
holds and the count is 1. -/
theorem c5_admission_bound_witness :
    wfC initConn t5w = true ∧ (runC initConn t5w).guards "9.9.9.9" ≤ 10 :=
  ⟨by decide, (c5_admission_bound t5w "9.9.9.9" (by decide)).1⟩

end Presence
